import Mathlib

/-!
Verification development for `pdf_converter.py`, a command-line tool that
converts PDF files into per-page JPEG images and first-page thumbnails.

The Python program is shallowly embedded: its pure helpers
(`get_output_basename`, the size-argument resolution) become Lean functions,
and the effectful parts (`convert_pdf_pages_to_jpeg`, `generate_pdf_thumbnail`,
`main`) become functions over an explicit environment `Env` that records the
outcomes of filesystem and renderer operations, returning a trace of the
observable effects (files written, renderer calls made, copies attempted,
exit code).

Python `os.path` primitives (`splitext`, `basename`, `join`) and `str.lower`
are modelled after their CPython `posixpath` implementations.
-/

namespace PdfConverter

/-- Index of the last occurrence of `c` in `l` (`str.rfind` restricted to a
single character), counting from offset `i`. -/
def rfindAux (c : Char) : List Char → Nat → Option Nat
  | [], _ => none
  | x :: xs, i =>
    match rfindAux c xs (i + 1) with
    | some j => some j
    | none => if x = c then some i else none

/-- `l.rfind c`: index of the last occurrence of `c`, or `none`. -/
def rfind (c : Char) (l : List Char) : Option Nat :=
  rfindAux c l 0

/-- CPython `posixpath.splitext`: split at the last dot, provided that dot
lies strictly after the last path separator and at least one character of
the basename before it is not a dot (so names consisting only of leading
dots, like `.bashrc`, have no extension). -/
def splitext (p : String) : String × String :=
  let l := p.data
  match rfind '.' l with
  | none => (p, "")
  | some d =>
    let s : Nat :=
      match rfind '/' l with
      | none => 0
      | some i => i + 1
    if s ≤ d && ((l.drop s).take (d - s)).any (fun c => c ≠ '.') then
      (⟨l.take d⟩, ⟨l.drop d⟩)
    else
      (p, "")

/-- CPython `posixpath.basename`: everything after the last `/`. -/
def basename (p : String) : String :=
  ⟨(p.data.reverse.takeWhile (fun c => c ≠ '/')).reverse⟩

/-- CPython `posixpath.join` for two components. -/
def pjoin (a b : String) : String :=
  if b.data.take 1 = ['/'] then b
  else if a = "" || a.data.reverse.take 1 = ['/'] then a ++ b
  else a ++ "/" ++ b

/-- Python `str.lower`, restricted to ASCII case mapping (all inputs the
program compares against are ASCII). -/
def pyLower (s : String) : String :=
  ⟨s.data.map Char.toLower⟩

/-- `s.endswith suffix` via the underlying character lists. -/
def strEndsWith (s sfx : String) : Bool :=
  sfx.data.isSuffixOf s.data

/-- Truthiness of an optional string in Python: `None` and `""` are falsy. -/
def truthy : Option String → Bool
  | none => false
  | some s => s ≠ ""

/-- `get_output_basename(input_path, output_base_arg)`: if `output_base_arg`
is truthy, return it with its extension stripped; otherwise strip the
extension from the input path's basename. -/
def get_output_basename (input_path : String) (output_base_arg : Option String) : String :=
  if truthy output_base_arg then
    (splitext (output_base_arg.getD "")).fst
  else
    (splitext (basename input_path)).fst

/-- Outcome of one `pdf2image.convert_from_path` invocation in the
environment: either one of the caught exceptions is raised, or a list of
page images is produced (only the page count is observable downstream). -/
inductive RenderResult where
  | raised
  | ok (numImages : Nat)
deriving DecidableEq, Repr

/-- Record of the keyword arguments of one `convert_from_path` call. -/
structure RenderCall where
  dpi : Nat
  size : Option (Option Int × Option Int)
  firstPage : Option Nat
  lastPage : Option Nat
  threadCount : Nat
deriving DecidableEq, Repr

/-- Record of one `img.save(path, 'JPEG', quality=q)` call that completed. -/
structure JpegWrite where
  path : String
  quality : Nat
deriving DecidableEq, Repr

/-- Environment: the responses of the filesystem, the renderer and the image
codec to the calls the program makes during one run. -/
structure Env where
  /-- `os.makedirs(d, exist_ok=True)` succeeds. -/
  mkdirOk : String → Bool
  /-- `os.path.isfile(p)`. -/
  isfile : String → Bool
  /-- `os.path.isdir(p)`. -/
  isdir : String → Bool
  /-- Direct-child entry names of a directory, in scan order (feeds `glob`). -/
  listdir : String → List String
  /-- Full-document `convert_from_path` outcome for a given PDF path. -/
  renderFull : String → RenderResult
  /-- `img.save` succeeds for page `n` (1-indexed) of a given PDF path. -/
  saveFullOk : String → Nat → Bool
  /-- First-page-only `convert_from_path` outcome for a given PDF path. -/
  renderThumb : String → RenderResult
  /-- `images[0].save` succeeds for the thumbnail of a given PDF path. -/
  saveThumbOk : String → Bool
  /-- `shutil.copy2(src, dst)` succeeds. -/
  copyOk : String → String → Bool
  /-- `os.cpu_count()`, with `0` standing for `None`. -/
  cpuCount : Nat

/-- The `size_arg` computed in `convert_pdf_pages_to_jpeg` from the
`--width`/`--height` arguments. -/
def full_size_arg (width height : Option Int) : Option (Option Int × Option Int) :=
  if width.isSome && height.isSome then some (width, height)
  else if width.isSome then some (width, none)
  else if height.isSome then some (none, height)
  else none

/-- The `size_arg` computed in `generate_pdf_thumbnail` from the
`--thumb-width`/`--thumb-height` arguments (same shape as the full-page
resolution, duplicated in the source). -/
def thumb_size_arg (tw th : Option Int) : Option (Option Int × Option Int) :=
  if tw.isSome && th.isSome then some (tw, th)
  else if tw.isSome then some (tw, none)
  else if th.isSome then some (none, th)
  else none

/-- Result of `convert_pdf_pages_to_jpeg`: the returned pair
`(success, num_pages)` plus the trace of completed JPEG writes and of
renderer invocations. -/
structure PageConvOut where
  success : Bool
  numPages : Nat
  writes : List JpegWrite
  calls : List RenderCall
deriving DecidableEq, Repr

/-- The filename of page `pageNum` (1-indexed). -/
def pageFileName (base : String) (pageNum : Nat) : String :=
  base ++ "_page" ++ toString pageNum ++ ".jpg"

/-- The save loop over the page images: writes pages `pageNum`,
`pageNum + 1`, ... (`n` of them) at quality 90, stopping at the first save
that raises; returns the completed writes and whether all succeeded. -/
def savePages (saveOk : Nat → Bool) (dir base : String) : Nat → Nat → List JpegWrite × Bool
  | 0, _ => ([], true)
  | n + 1, pageNum =>
    if saveOk pageNum then
      let r := savePages saveOk dir base n (pageNum + 1)
      (⟨pjoin dir (pageFileName base pageNum), 90⟩ :: r.fst, r.snd)
    else
      ([], false)

/-- `convert_pdf_pages_to_jpeg(input_pdf, output_dir, output_filename_base,
width, height)`: render all pages at 300 DPI and save each as
`{base}_page{i}.jpg` at quality 90. Any exception (from `os.makedirs`,
the renderer or a save) is caught and yields `(False, 0)`; an empty image
list also yields `(False, 0)`. -/
def convert_pdf_pages_to_jpeg (env : Env) (input_pdf output_dir output_filename_base : String)
    (width height : Option Int) : PageConvOut :=
  if !env.mkdirOk output_dir then ⟨false, 0, [], []⟩
  else
    let call : RenderCall :=
      ⟨300, full_size_arg width height, none, none,
        if env.cpuCount = 0 then 1 else env.cpuCount⟩
    match env.renderFull input_pdf with
    | .raised => ⟨false, 0, [], [call]⟩
    | .ok 0 => ⟨false, 0, [], [call]⟩
    | .ok (n + 1) =>
      let r := savePages (env.saveFullOk input_pdf) output_dir output_filename_base (n + 1) 1
      ⟨r.snd, if r.snd then n + 1 else 0, r.fst, [call]⟩

/-- Result of `generate_pdf_thumbnail`: the returned success flag plus the
trace of completed JPEG writes and of renderer invocations. -/
structure ThumbOut where
  success : Bool
  writes : List JpegWrite
  calls : List RenderCall
deriving DecidableEq, Repr

/-- `generate_pdf_thumbnail(input_pdf, output_dir, output_filename_base,
thumb_width, thumb_height, thumb_suffix)`: render only page 1
(`first_page=1, last_page=1`) at 200 DPI with `thread_count=1` and save
`images[0]` as `{base}{suffix}.jpg` at quality 85. Exceptions and an empty
image list yield `False`. -/
def generate_pdf_thumbnail (env : Env) (input_pdf output_dir output_filename_base : String)
    (thumb_width thumb_height : Option Int) (thumb_suffix : String) : ThumbOut :=
  if !env.mkdirOk output_dir then ⟨false, [], []⟩
  else
    let call : RenderCall := ⟨200, thumb_size_arg thumb_width thumb_height, some 1, some 1, 1⟩
    match env.renderThumb input_pdf with
    | .raised => ⟨false, [], [call]⟩
    | .ok 0 => ⟨false, [], [call]⟩
    | .ok (_ + 1) =>
      if env.saveThumbOk input_pdf then
        ⟨true, [⟨pjoin output_dir (output_filename_base ++ thumb_suffix ++ ".jpg"), 85⟩], [call]⟩
      else
        ⟨false, [], [call]⟩

/-- An all-success environment used for concrete checks. -/
def envOkTwoPages : Env where
  mkdirOk := fun _ => true
  isfile := fun _ => true
  isdir := fun _ => true
  listdir := fun _ => ["x.pdf"]
  renderFull := fun _ => .ok 2
  saveFullOk := fun _ _ => true
  renderThumb := fun _ => .ok 1
  saveThumbOk := fun _ => true
  copyOk := fun _ _ => true
  cpuCount := 4

/-- Parsed command-line arguments. `argparse` yields `None` for an absent
string option; the mutually exclusive input group guarantees at most one of
`input_file`/`input_folder` is present. -/
structure Args where
  input_file : Option String
  input_folder : Option String
  output_dir : Option String
  output_base : Option String
  width : Option Int
  height : Option Int
  thumbnail_only : Bool
  thumb_width : Option Int
  thumb_height : Option Int
  thumb_suffix : String
deriving Repr

/-- Whether a directory entry name is matched by the glob pattern
`*.ext` (`ext` is `.pdf` or `.PDF` here): `glob` hides names that start
with a dot and otherwise matches the literal suffix case-sensitively. -/
def globMatch (ext name : String) : Bool :=
  !(name.data.take 1 = ['.']) && strEndsWith name ext

/-- The second enumeration loop of `main`: append each `*.PDF` match that is
a regular file and not already in the accumulated list. -/
def addUppers (env : Env) (acc : List String) : List String → List String
  | [] => acc
  | p :: ps =>
    if env.isfile p && !acc.contains p then addUppers env (acc ++ [p]) ps
    else addUppers env acc ps

/-- Folder-mode candidate enumeration in `main`: `glob(folder/*.pdf)`
filtered by `isfile`, then `glob(folder/*.PDF)` matches appended when not
already present. Non-recursive by construction (direct children only). -/
def enumerateFolder (env : Env) (folder : String) : List String :=
  let lower :=
    (((env.listdir folder).filter (globMatch ".pdf")).map (pjoin folder)).filter env.isfile
  let upper := ((env.listdir folder).filter (globMatch ".PDF")).map (pjoin folder)
  addUppers env lower upper

/-- Per-candidate trace assembled by the processing loop of `main`. -/
structure FileTrace where
  path : String
  baseName : String
  /-- The candidate's `success_flag`. -/
  success : Bool
  /-- The source-PDF copy, when attempted: destination path and outcome. -/
  copyAttempt : Option (String × Bool)
  writes : List JpegWrite
deriving DecidableEq, Repr

/-- One iteration of the processing loop of `main` for candidate `pdf`. -/
def processCandidate (env : Env) (args : Args) (outDir pdf : String) : FileTrace :=
  let currentArg : Option String :=
    if truthy args.input_file && truthy args.output_base then args.output_base else none
  let base := get_output_basename pdf currentArg
  if args.thumbnail_only then
    let t := generate_pdf_thumbnail env pdf outDir base args.thumb_width args.thumb_height
      args.thumb_suffix
    ⟨pdf, base, t.success, none, t.writes⟩
  else
    let c := convert_pdf_pages_to_jpeg env pdf outDir base args.width args.height
    let copyAtt : Option (String × Bool) :=
      if truthy args.input_file && truthy currentArg && c.success then
        let dst := pjoin outDir (base ++ ".pdf")
        some (dst, env.copyOk pdf dst)
      else none
    ⟨pdf, base, c.success, copyAtt, c.writes⟩

/-- Accumulated state of the processing loop: per-file traces and the
`total_errors` / `total_files_processed` counters. -/
structure LoopOut where
  traces : List FileTrace
  totalErrors : Nat
  totalFilesProcessed : Nat
deriving DecidableEq, Repr

/-- The processing loop of `main` over the candidate list. -/
def runAll (env : Env) (args : Args) (outDir : String) : List String → LoopOut
  | [] => ⟨[], 0, 0⟩
  | p :: ps =>
    let t := processCandidate env args outDir p
    let r := runAll env args outDir ps
    ⟨t :: r.traces,
      (if t.success then 0 else 1) + r.totalErrors,
      (if t.success then 1 else 0) + r.totalFilesProcessed⟩

/-- Observable outcome of one run of `main`. -/
structure MainOut where
  /-- The `sys.exit` status. -/
  exit : Nat
  /-- A pre-flight `sys.exit(1)` was taken (output-directory creation
  failure, missing input file/folder, or wrong single-file extension). -/
  preflightFailed : Bool
  /-- The folder-mode early `sys.exit(0)` for zero PDF candidates. -/
  noPdfsFound : Bool
  candidates : List String
  traces : List FileTrace
  totalErrors : Nat
  totalFilesProcessed : Nat
  /-- The counts printed at the end when the candidate list is non-empty:
  total, `total_files_processed - total_errors` (an `Int`: the printed
  expression can go negative), `total_errors`. -/
  reported : Option (Nat × Int × Nat)
deriving DecidableEq, Repr

/-- Outcome of a pre-flight failure: `sys.exit(1)` before any candidate. -/
def preflightOut : MainOut :=
  ⟨1, true, false, [], [], 0, 0, none⟩

/-- Outcome of the folder-mode "no PDFs found" informational exit. -/
def noPdfsOut : MainOut :=
  ⟨0, false, true, [], [], 0, 0, none⟩

/-- Tail of `main` once the candidate list is fixed: run the loop, print the
aggregate counts, and exit 1 exactly when `total_errors > 0`. -/
def finishRun (env : Env) (args : Args) (outDir : String) (cands : List String) : MainOut :=
  let r := runAll env args outDir cands
  ⟨if r.totalErrors > 0 then 1 else 0,
    false, false, cands, r.traces, r.totalErrors, r.totalFilesProcessed,
    if cands.isEmpty then none
    else some (cands.length, (r.totalFilesProcessed : Int) - (r.totalErrors : Int), r.totalErrors)⟩

/-- `main()`: resolve the output directory, create it, enumerate candidates
(single file or folder glob), process each, and exit. An unset output
directory (both inputs falsy and no `--output-dir`) makes `os.makedirs(None)`
raise, which also terminates with status 1 before any candidate. -/
def main (env : Env) (args : Args) : MainOut :=
  let actualOutputDir : Option String :=
    if truthy args.input_folder then
      if truthy args.output_dir then args.output_dir else args.input_folder
    else if truthy args.input_file then
      if truthy args.output_dir then args.output_dir else some "."
    else args.output_dir
  match actualOutputDir with
  | none => preflightOut
  | some outDir =>
    if !env.mkdirOk outDir then preflightOut
    else if truthy args.input_file then
      let f := args.input_file.getD ""
      if !env.isfile f then preflightOut
      else if !strEndsWith (pyLower f) ".pdf" then preflightOut
      else finishRun env args outDir [f]
    else if truthy args.input_folder then
      let folder := args.input_folder.getD ""
      if !env.isdir folder then preflightOut
      else
        let cands := enumerateFolder env folder
        if cands.isEmpty then noPdfsOut
        else finishRun env args outDir cands
    else finishRun env args outDir []

/-- Folder-mode arguments used for concrete checks. -/
def argsFolder : Args :=
  ⟨none, some "docs", none, none, none, none, false, none, none, "_thumbnail"⟩

/-- Single-file arguments used for concrete checks. -/
def argsSingle : Args :=
  ⟨some "in/report.pdf", none, some "out", some "final", none, none, false, none, none,
    "_thumbnail"⟩

/-- Modelled from the spec's case analysis of the requested render size:
exact pair when both dimensions are given, the given dimension with the
other unconstrained when exactly one is given, and no size constraint when
neither is given. Compared against the `size_arg` chains of the source. -/
def sizeSpecClaim (w h : Option Int) : Option (Option Int × Option Int) :=
  match w, h with
  | some w, some h => some (some w, some h)
  | some w, none => some (some w, none)
  | none, some h => some (none, some h)
  | none, none => none

/-- Environment in which every full-page rendering raises (e.g. a malformed
PDF): the single folder candidate fails. -/
def envRenderErr : Env :=
  { envOkTwoPages with renderFull := fun _ => .raised }

/-- The trace of the successful single-file run with override `"final"`. -/
def traceSingleOk : FileTrace :=
  ⟨"in/report.pdf", "final", true, some ("out/final.pdf", true),
    [⟨"out/final_page1.jpg", 90⟩, ⟨"out/final_page2.jpg", 90⟩]⟩

/-- Folder listing containing a mixed-case `.Pdf` entry: `glob` matches
neither `*.pdf` nor `*.PDF` for it. -/
def envMixed : Env :=
  { envOkTwoPages with listdir := fun _ => ["a.Pdf", "b.pdf"] }

/-- Single-file arguments selecting the mixed-case `a.Pdf`. -/
def argsMixedSingle : Args :=
  ⟨some "a.Pdf", none, none, none, none, none, false, none, none, "_thumbnail"⟩

example : splitext "output.pdf" = ("output", ".pdf") := by decide
example : splitext "output" = ("output", "") := by decide
example : splitext ".pdf" = (".pdf", "") := by decide
example : splitext "a.b.c" = ("a.b", ".c") := by decide
example : splitext "dir.x/noext" = ("dir.x/noext", "") := by decide
example : basename "a/b/c.pdf" = "c.pdf" := by decide
example : basename "c.pdf" = "c.pdf" := by decide
example : pjoin "docs" "a.pdf" = "docs/a.pdf" := by decide
example : pjoin "docs/" "a.pdf" = "docs/a.pdf" := by decide
example : pjoin "docs" "/abs.pdf" = "/abs.pdf" := by decide
example : pyLower "a.Pdf" = "a.pdf" := by decide
example : strEndsWith "a.pdf" ".pdf" = true := by decide
example : strEndsWith "a.Pdf" ".pdf" = false := by decide
example : get_output_basename "in/report.pdf" none = "report" := by decide
example : get_output_basename "in/report.pdf" (some "output.pdf") = "output" := by decide
example : get_output_basename "in/report.pdf" (some "") = "report" := by decide

example :
    convert_pdf_pages_to_jpeg envOkTwoPages "in/report.pdf" "out" "report" none none =
      ⟨true, 2, [⟨"out/report_page1.jpg", 90⟩, ⟨"out/report_page2.jpg", 90⟩],
        [⟨300, none, none, none, 4⟩]⟩ := by decide

example :
    generate_pdf_thumbnail envOkTwoPages "in/report.pdf" "out" "report" (some 100) none
        "_thumbnail" =
      ⟨true, [⟨"out/report_thumbnail.jpg", 85⟩],
        [⟨200, some (some 100, none), some 1, some 1, 1⟩]⟩ := by decide

example :
    (main envOkTwoPages argsFolder).candidates = ["docs/x.pdf"] ∧
    (main envOkTwoPages argsFolder).exit = 0 ∧
    (main envOkTwoPages argsFolder).traces =
      [⟨"docs/x.pdf", "x", true, none,
        [⟨"docs/x_page1.jpg", 90⟩, ⟨"docs/x_page2.jpg", 90⟩]⟩] ∧
    (main envOkTwoPages argsFolder).reported = some (1, 1, 0) := by decide

example :
    (main envOkTwoPages argsSingle).traces =
      [⟨"in/report.pdf", "final", true, some ("out/final.pdf", true),
        [⟨"out/final_page1.jpg", 90⟩, ⟨"out/final_page2.jpg", 90⟩]⟩] ∧
    (main envOkTwoPages argsSingle).exit = 0 := by decide

lemma takeWhile_append_stop {p : Char → Bool} (l1 : List Char) (a : Char) (l2 : List Char)
    (h : ∀ x ∈ l1, p x = true) (ha : p a = false) :
    (l1 ++ a :: l2).takeWhile p = l1 := by
  induction l1 with
  | nil =>
    rw [List.nil_append, List.takeWhile_cons, if_neg (by simp [ha])]
  | cons x xs ih =>
    have hx : p x = true := h x (by simp)
    rw [List.cons_append, List.takeWhile_cons, if_pos hx,
      ih (fun y hy => h y (by simp [hy]))]

lemma takeWhile_eq_self {p : Char → Bool} (l : List Char) (h : ∀ x ∈ l, p x = true) :
    l.takeWhile p = l := by
  induction l with
  | nil => rfl
  | cons x xs ih =>
    have hx : p x = true := h x (by simp)
    rw [List.takeWhile_cons, if_pos hx, ih (fun y hy => h y (by simp [hy]))]

lemma basename_no_sep (n : String) (h : ∀ c ∈ n.data, c ≠ '/') : basename n = n := by
  unfold basename
  have hall : ∀ x ∈ n.data.reverse, (fun c => decide (c ≠ '/')) x = true := by
    intro x hx
    simp only [decide_eq_true_eq]
    exact h x (List.mem_reverse.mp hx)
  rw [takeWhile_eq_self _ hall, List.reverse_reverse]

lemma data_append (a b : String) : (a ++ b).data = a.data ++ b.data := rfl

lemma basename_under_dir (d n : String) (h : ∀ c ∈ n.data, c ≠ '/') :
    basename (d ++ "/" ++ n) = n := by
  unfold basename
  have hd : (d ++ "/" ++ n).data.reverse = n.data.reverse ++ '/' :: d.data.reverse := by
    simp [data_append]
  rw [hd]
  have hall : ∀ x ∈ n.data.reverse, (fun c => decide (c ≠ '/')) x = true := by
    intro x hx
    simp only [decide_eq_true_eq]
    exact h x (List.mem_reverse.mp hx)
  rw [takeWhile_append_stop _ _ _ hall (by decide), List.reverse_reverse]

/-- **C2.** For every input path `p` (and any second path `q`) and every
non-empty override `o`, `get_output_basename p (some o)` returns `o` with its
extension stripped, independently of the input path; in particular the
overrides `"output"` and `"output.pdf"` both yield `"output"`. -/
theorem C2_override_strips_extension (p q o : String) (h : o ≠ "") :
    get_output_basename p (some o) = (splitext o).fst ∧
    get_output_basename p (some o) = get_output_basename q (some o) ∧
    get_output_basename p (some "output") = "output" ∧
    get_output_basename p (some "output.pdf") = "output" := by
  refine ⟨?_, ?_, ?_, ?_⟩ <;> simp [get_output_basename, truthy, h] <;> decide

/-- Witness for C2 at `p = "a/b.pdf"`, `q = "c.pdf"`, `o = "output.pdf"`. -/
theorem C2_witness :
    ("output.pdf" : String) ≠ "" ∧
    (get_output_basename "a/b.pdf" (some "output.pdf") = (splitext "output.pdf").fst ∧
      get_output_basename "a/b.pdf" (some "output.pdf") =
        get_output_basename "c.pdf" (some "output.pdf") ∧
      get_output_basename "a/b.pdf" (some "output") = "output" ∧
      get_output_basename "a/b.pdf" (some "output.pdf") = "output") :=
  ⟨by decide, C2_override_strips_extension "a/b.pdf" "c.pdf" "output.pdf" (by decide)⟩

/-- **C3.** With no override, `get_output_basename` returns the input path's
filename component with its extension removed: for a filename `n` (no path
separator in it) the result is the same whether `n` stands alone or under an
arbitrarily deep directory prefix `d`, namely `n` without its extension. -/
theorem C3_no_override_uses_filename (d n : String) (h : ∀ c ∈ n.data, c ≠ '/') :
    get_output_basename n none = (splitext n).fst ∧
    get_output_basename (d ++ "/" ++ n) none = (splitext n).fst := by
  constructor
  · simp [get_output_basename, truthy, basename_no_sep n h]
  · simp [get_output_basename, truthy, basename_under_dir d n h]

/-- Witness for C3 at `d = "a/b/c"`, `n = "report.pdf"`. -/
theorem C3_witness :
    (∀ c ∈ ("report.pdf" : String).data, c ≠ '/') ∧
    (get_output_basename "report.pdf" none = (splitext "report.pdf").fst ∧
      get_output_basename ("a/b/c" ++ "/" ++ "report.pdf") none = (splitext "report.pdf").fst) :=
  ⟨by decide, C3_no_override_uses_filename "a/b/c" "report.pdf" (by decide)⟩

lemma savePages_of_success (f : Nat → Bool) (d b : String) :
    ∀ n k, (savePages f d b n k).snd = true →
      (savePages f d b n k).fst =
        (List.range' k n).map (fun j => JpegWrite.mk (pjoin d (pageFileName b j)) 90) := by
  intro n
  induction n with
  | zero => intro k _; rfl
  | succ m ih =>
    intro k hs
    by_cases hf : f k = true
    · simp only [savePages, hf, if_true] at hs ⊢
      rw [List.range'_succ, List.map_cons, ih (k + 1) hs]
    · simp [savePages, hf] at hs

/-- **C7.** Whenever `convert_pdf_pages_to_jpeg` reports success, the page
count `N` is positive and the completed JPEG writes are exactly
`{output_dir}/{base}_page{i}.jpg` for `i = 1..N` in order, each at
quality 90. -/
theorem C7_full_page_output_files (env : Env) (pdf dir base : String) (w h : Option Int)
    (hs : (convert_pdf_pages_to_jpeg env pdf dir base w h).success = true) :
    0 < (convert_pdf_pages_to_jpeg env pdf dir base w h).numPages ∧
    (convert_pdf_pages_to_jpeg env pdf dir base w h).writes =
      (List.range (convert_pdf_pages_to_jpeg env pdf dir base w h).numPages).map
        (fun i => JpegWrite.mk (pjoin dir (pageFileName base (i + 1))) 90) := by
  by_cases hm : env.mkdirOk dir = true
  · rcases hr : env.renderFull pdf with _ | n
    · simp [convert_pdf_pages_to_jpeg, hm, hr] at hs
    · cases n with
      | zero => simp [convert_pdf_pages_to_jpeg, hm, hr] at hs
      | succ m =>
        have hsv : (savePages (env.saveFullOk pdf) dir base (m + 1) 1).snd = true := by
          simpa [convert_pdf_pages_to_jpeg, hm, hr] using hs
        constructor
        · simp [convert_pdf_pages_to_jpeg, hm, hr, hsv]
        · simp only [convert_pdf_pages_to_jpeg, hm, hr, hsv, Bool.not_true, if_true,
            Bool.false_eq_true, if_false]
          rw [savePages_of_success _ _ _ _ _ hsv, List.range'_eq_map_range, List.map_map]
          exact List.map_congr_left (fun i _ => by simp [Nat.add_comm])
  · simp [convert_pdf_pages_to_jpeg, hm] at hs

/-- Witness for C7: two-page success at base `"report"`. -/
theorem C7_witness :
    (convert_pdf_pages_to_jpeg envOkTwoPages "in/report.pdf" "out" "report" none none).success =
      true ∧
    (0 < (convert_pdf_pages_to_jpeg envOkTwoPages "in/report.pdf" "out" "report" none none).numPages ∧
      (convert_pdf_pages_to_jpeg envOkTwoPages "in/report.pdf" "out" "report" none none).writes =
        (List.range
            (convert_pdf_pages_to_jpeg envOkTwoPages "in/report.pdf" "out" "report" none
              none).numPages).map
          (fun i => JpegWrite.mk (pjoin "out" (pageFileName "report" (i + 1))) 90)) :=
  ⟨by decide, C7_full_page_output_files envOkTwoPages "in/report.pdf" "out" "report" none none
    (by decide)⟩

/-- **C8.** Whenever `generate_pdf_thumbnail` reports success, exactly one
JPEG is written, at `{output_dir}/{base}{suffix}.jpg` with quality 85, and
the single renderer call was restricted to `first_page = 1, last_page = 1`
(at 200 DPI, `thread_count = 1`), independently of the document's page
count. -/
theorem C8_thumbnail_output (env : Env) (pdf dir base : String) (tw th : Option Int)
    (sfx : String)
    (hs : (generate_pdf_thumbnail env pdf dir base tw th sfx).success = true) :
    (generate_pdf_thumbnail env pdf dir base tw th sfx).writes =
      [JpegWrite.mk (pjoin dir (base ++ sfx ++ ".jpg")) 85] ∧
    (generate_pdf_thumbnail env pdf dir base tw th sfx).calls =
      [RenderCall.mk 200 (thumb_size_arg tw th) (some 1) (some 1) 1] := by
  by_cases hm : env.mkdirOk dir = true
  · rcases hr : env.renderThumb pdf with _ | n
    · simp [generate_pdf_thumbnail, hm, hr] at hs
    · cases n with
      | zero => simp [generate_pdf_thumbnail, hm, hr] at hs
      | succ m =>
        by_cases hsv : env.saveThumbOk pdf = true
        · simp [generate_pdf_thumbnail, hm, hr, hsv]
        · simp [generate_pdf_thumbnail, hm, hr, hsv] at hs
  · simp [generate_pdf_thumbnail, hm] at hs

/-- Witness for C8: one-page thumbnail success with suffix `"_thumbnail"`. -/
theorem C8_witness :
    (generate_pdf_thumbnail envOkTwoPages "in/report.pdf" "out" "report" none none
        "_thumbnail").success = true ∧
    ((generate_pdf_thumbnail envOkTwoPages "in/report.pdf" "out" "report" none none
          "_thumbnail").writes =
        [JpegWrite.mk (pjoin "out" ("report" ++ "_thumbnail" ++ ".jpg")) 85] ∧
      (generate_pdf_thumbnail envOkTwoPages "in/report.pdf" "out" "report" none none
          "_thumbnail").calls =
        [RenderCall.mk 200 (thumb_size_arg none none) (some 1) (some 1) 1]) :=
  ⟨by decide, C8_thumbnail_output envOkTwoPages "in/report.pdf" "out" "report" none none
    "_thumbnail" (by decide)⟩

/-- **C9.** Every renderer call made by the full-page writer carries the
size specification of the spec's case analysis on `--width`/`--height`, and
every call made by the thumbnail writer carries the analogous specification
on `--thumb-width`/`--thumb-height`. -/
theorem C9_render_size_specification (env : Env) (pdf dir base : String)
    (w h tw th : Option Int) (sfx : String) :
    (∀ c ∈ (convert_pdf_pages_to_jpeg env pdf dir base w h).calls,
        c.size = sizeSpecClaim w h) ∧
    (∀ c ∈ (generate_pdf_thumbnail env pdf dir base tw th sfx).calls,
        c.size = sizeSpecClaim tw th) := by
  have e1 : full_size_arg w h = sizeSpecClaim w h := by
    cases w <;> cases h <;> rfl
  have e2 : thumb_size_arg tw th = sizeSpecClaim tw th := by
    cases tw <;> cases th <;> rfl
  constructor
  · intro c hc
    by_cases hm : env.mkdirOk dir = true
    · rcases hr : env.renderFull pdf with _ | n
      · simp only [convert_pdf_pages_to_jpeg, hm, hr] at hc
        simp at hc
        rw [hc]
        exact e1
      · cases n with
        | zero =>
          simp only [convert_pdf_pages_to_jpeg, hm, hr] at hc
          simp at hc
          rw [hc]
          exact e1
        | succ m =>
          simp only [convert_pdf_pages_to_jpeg, hm, hr] at hc
          simp at hc
          rw [hc]
          exact e1
    · simp [convert_pdf_pages_to_jpeg, hm] at hc
  · intro c hc
    by_cases hm : env.mkdirOk dir = true
    · rcases hr : env.renderThumb pdf with _ | n
      · simp only [generate_pdf_thumbnail, hm, hr] at hc
        simp at hc
        rw [hc]
        exact e2
      · cases n with
        | zero =>
          simp only [generate_pdf_thumbnail, hm, hr] at hc
          simp at hc
          rw [hc]
          exact e2
        | succ m =>
          by_cases hsv : env.saveThumbOk pdf = true <;>
            [skip; skip] <;>
            · simp only [generate_pdf_thumbnail, hm, hr, hsv] at hc
              simp at hc
              rw [hc]
              exact e2
    · simp [generate_pdf_thumbnail, hm] at hc

/-- Witness for C9: the single call of each writer with only a width. -/
theorem C9_witness :
    RenderCall.mk 300 (full_size_arg (some 640) none) none none 4 ∈
      (convert_pdf_pages_to_jpeg envOkTwoPages "in/report.pdf" "out" "report" (some 640)
        none).calls ∧
    (RenderCall.mk 300 (full_size_arg (some 640) none) none none 4).size =
      sizeSpecClaim (some 640) none :=
  ⟨by decide,
    (C9_render_size_specification envOkTwoPages "in/report.pdf" "out" "report" (some 640) none
      none none "_thumbnail").1 _ (by decide)⟩

lemma main_shape (env : Env) (args : Args) :
    main env args = preflightOut ∨ main env args = noPdfsOut ∨
      ∃ d cands, main env args = finishRun env args d cands := by
  unfold main
  dsimp only
  repeat' split
  all_goals
    first
      | exact Or.inl rfl
      | exact Or.inr (Or.inl rfl)
      | exact Or.inr (Or.inr ⟨_, _, rfl⟩)

/-- **C4.** After a successful pre-flight, the exit status is 0 exactly when
zero per-candidate errors were recorded; a pre-flight failure (output
directory, missing input, wrong single-file extension) exits 1; the
folder-mode "no PDFs found" exit is status 0 with no candidate processed. -/
theorem C4_exit_status (env : Env) (args : Args) :
    ((main env args).preflightFailed = false →
      ((main env args).exit = 0 ↔ (main env args).totalErrors = 0)) ∧
    ((main env args).preflightFailed = true → (main env args).exit = 1) ∧
    ((main env args).noPdfsFound = true →
      (main env args).exit = 0 ∧ (main env args).totalErrors = 0 ∧
        (main env args).traces = []) := by
  rcases main_shape env args with hm | hm | ⟨d, cands, hm⟩ <;> rw [hm]
  · exact ⟨fun hc => by simp [preflightOut] at hc, fun _ => rfl, fun hc => by
      simp [preflightOut] at hc⟩
  · exact ⟨fun _ => by simp [noPdfsOut], fun hc => by simp [noPdfsOut] at hc,
      fun _ => ⟨rfl, rfl, rfl⟩⟩
  · refine ⟨fun _ => ?_, fun hc => by simp [finishRun] at hc, fun hc => by
      simp [finishRun] at hc⟩
    simp only [finishRun]
    constructor
    · intro he
      by_contra hne
      have : 0 < (runAll env args d cands).totalErrors := Nat.pos_of_ne_zero hne
      simp [this] at he
    · intro he
      simp [he]

/-- Witness for C4: successful folder run, exit 0 with zero errors. -/
theorem C4_witness :
    (main envOkTwoPages argsFolder).preflightFailed = false ∧
    ((main envOkTwoPages argsFolder).exit = 0 ↔
      (main envOkTwoPages argsFolder).totalErrors = 0) :=
  ⟨by decide, (C4_exit_status envOkTwoPages argsFolder).1 (by decide)⟩

/-- **C5 evaluation.** On a folder run whose single candidate fails, the
printed "succeeded" figure is `total_files_processed - total_errors = -1`,
not the number of candidates recorded as successful (which is 0), and the
printed succeeded and failed figures do not sum to the printed total. -/
theorem C5_reported_counts_evaluation :
    (main envRenderErr argsFolder).reported = some (1, -1, 1) ∧
    ((main envRenderErr argsFolder).traces.filter (fun t => t.success)).length = 0 ∧
    (main envRenderErr argsFolder).totalErrors = 1 ∧
    (main envRenderErr argsFolder).totalFilesProcessed = 0 := by decide

lemma runAll_traces (env : Env) (args : Args) (d : String) :
    ∀ l, (runAll env args d l).traces = l.map (processCandidate env args d) := by
  intro l
  induction l with
  | nil => rfl
  | cons p ps ih => simp [runAll, ih]

lemma processCandidate_path (env : Env) (args : Args) (d p : String) :
    (processCandidate env args d p).path = p := by
  unfold processCandidate
  dsimp only
  split <;> rfl

lemma processCandidate_base_of_no_file (env : Env) (args : Args) (d p : String)
    (h : args.input_file = none) :
    (processCandidate env args d p).baseName = (splitext (basename p)).fst := by
  unfold processCandidate
  dsimp only
  rw [h]
  have hc : (if truthy none && truthy args.output_base then args.output_base else none) = none := by
    simp [truthy]
  rw [hc]
  have hb : get_output_basename p none = (splitext (basename p)).fst := by
    simp [get_output_basename, truthy]
  split <;> simpa using hb

lemma processCandidate_ob_eq (env : Env) (args : Args) (o : Option String) (d p : String)
    (h : args.input_file = none) :
    processCandidate env { args with output_base := o } d p =
      processCandidate env { args with output_base := none } d p := by
  simp [processCandidate, h, truthy]

lemma runAll_ob_eq (env : Env) (args : Args) (o : Option String) (d : String)
    (h : args.input_file = none) :
    ∀ l, runAll env { args with output_base := o } d l =
      runAll env { args with output_base := none } d l := by
  intro l
  induction l with
  | nil => rfl
  | cons p ps ih => simp [runAll, processCandidate_ob_eq env args o d p h, ih]

lemma finishRun_ob_eq (env : Env) (args : Args) (o : Option String) (d : String)
    (l : List String) (h : args.input_file = none) :
    finishRun env { args with output_base := o } d l =
      finishRun env { args with output_base := none } d l := by
  unfold finishRun
  rw [runAll_ob_eq env args o d h]

/-- **C1.** In folder mode the `--output-base` override has no effect: the
whole observable run is the same as with no override, and every enumerated
file's output base is its own filename with the extension removed. -/
theorem C1_folder_mode_override_no_effect (env : Env) (args : Args) (o : Option String)
    (hfolder : truthy args.input_folder = true) (hfile : args.input_file = none) :
    main env { args with output_base := o } = main env { args with output_base := none } ∧
    ∀ t ∈ (main env args).traces, t.baseName = (splitext (basename t.path)).fst := by
  constructor
  · unfold main
    dsimp only
    repeat' split
    all_goals first
      | rfl
      | exact finishRun_ob_eq env args o _ _ hfile
  · intro t ht
    rcases main_shape env args with hm | hm | ⟨d, cands, hm⟩ <;> rw [hm] at ht
    · simp [preflightOut] at ht
    · simp [noPdfsOut] at ht
    · simp only [finishRun] at ht
      rw [runAll_traces] at ht
      obtain ⟨p, _, rfl⟩ := List.mem_map.mp ht
      rw [processCandidate_path, processCandidate_base_of_no_file env args d p hfile]

/-- Witness for C1: folder run with override `"override"` versus none. -/
theorem C1_witness :
    truthy argsFolder.input_folder = true ∧ argsFolder.input_file = none ∧
    main envOkTwoPages { argsFolder with output_base := some "override" } =
      main envOkTwoPages { argsFolder with output_base := none } ∧
    (FileTrace.mk "docs/x.pdf" "x" true none
        [⟨"docs/x_page1.jpg", 90⟩, ⟨"docs/x_page2.jpg", 90⟩]) ∈
      (main envOkTwoPages argsFolder).traces ∧
    (FileTrace.mk "docs/x.pdf" "x" true none
        [⟨"docs/x_page1.jpg", 90⟩, ⟨"docs/x_page2.jpg", 90⟩]).baseName =
      (splitext (basename "docs/x.pdf")).fst :=
  ⟨by decide, rfl,
    (C1_folder_mode_override_no_effect envOkTwoPages argsFolder (some "override")
      (by decide) rfl).1,
    by decide,
    (C1_folder_mode_override_no_effect envOkTwoPages argsFolder (some "override")
      (by decide) rfl).2 _ (by decide)⟩

lemma processCandidate_copyAttempt (env : Env) (args : Args) (d p : String) :
    (processCandidate env args d p).copyAttempt.isSome =
      (!args.thumbnail_only &&
        (truthy args.input_file && truthy args.output_base &&
          (processCandidate env args d p).success)) := by
  unfold processCandidate
  dsimp only
  cases hth : args.thumbnail_only
  · cases hif : truthy args.input_file
    · simp [hif, truthy]
    · cases hob : truthy args.output_base
      · simp [hif, hob, truthy]
      · simp only [hif, hob, Bool.true_and, Bool.not_false, if_true]
        cases hs : (convert_pdf_pages_to_jpeg env p d (get_output_basename p args.output_base)
            args.width args.height).success <;> simp [hs]
  · simp

lemma processCandidate_copy_success (env : Env) (g : String → String → Bool)
    (args : Args) (d p : String) :
    (processCandidate { env with copyOk := g } args d p).success =
      (processCandidate env args d p).success := by
  unfold processCandidate
  dsimp only
  split <;> rfl

lemma runAll_copy_invariant (env : Env) (g : String → String → Bool) (args : Args)
    (d : String) :
    ∀ l, (runAll { env with copyOk := g } args d l).totalErrors =
        (runAll env args d l).totalErrors ∧
      (runAll { env with copyOk := g } args d l).totalFilesProcessed =
        (runAll env args d l).totalFilesProcessed ∧
      ((runAll { env with copyOk := g } args d l).traces.map (fun t => t.success) =
        (runAll env args d l).traces.map (fun t => t.success)) := by
  intro l
  induction l with
  | nil => exact ⟨rfl, rfl, rfl⟩
  | cons p ps ih =>
    refine ⟨?_, ?_, ?_⟩ <;>
      simp [runAll, processCandidate_copy_success env g args d p, ih.1, ih.2.1, ih.2.2]

lemma runAll_copy_totalErrors (env : Env) (g : String → String → Bool) (args : Args)
    (d : String) (l : List String) :
    (runAll { env with copyOk := g } args d l).totalErrors =
      (runAll env args d l).totalErrors :=
  (runAll_copy_invariant env g args d l).1

lemma runAll_copy_processed (env : Env) (g : String → String → Bool) (args : Args)
    (d : String) (l : List String) :
    (runAll { env with copyOk := g } args d l).totalFilesProcessed =
      (runAll env args d l).totalFilesProcessed :=
  (runAll_copy_invariant env g args d l).2.1

lemma runAll_copy_successes (env : Env) (g : String → String → Bool) (args : Args)
    (d : String) (l : List String) :
    ((runAll { env with copyOk := g } args d l).traces.map (fun t => t.success) =
      (runAll env args d l).traces.map (fun t => t.success)) :=
  (runAll_copy_invariant env g args d l).2.2

lemma enumerateFolder_copy (env : Env) (g : String → String → Bool) (folder : String) :
    enumerateFolder { env with copyOk := g } folder = enumerateFolder env folder := by
  have haddU : ∀ l acc, addUppers { env with copyOk := g } acc l = addUppers env acc l := by
    intro l
    induction l with
    | nil => intro acc; rfl
    | cons q qs ih => intro acc; unfold addUppers; dsimp only; split <;> [rw [ih]; rw [ih]]
  unfold enumerateFolder
  dsimp only
  rw [haddU]

lemma main_copy_invariant (env : Env) (g : String → String → Bool) (args : Args) :
    (main { env with copyOk := g } args).exit = (main env args).exit ∧
    (main { env with copyOk := g } args).totalErrors = (main env args).totalErrors ∧
    ((main { env with copyOk := g } args).traces.map (fun t => t.success) =
      (main env args).traces.map (fun t => t.success)) := by
  unfold main
  dsimp only
  simp only [enumerateFolder_copy]
  repeat' split
  all_goals
    refine ⟨?_, ?_, ?_⟩ <;>
      simp [preflightOut, noPdfsOut, finishRun, runAll_copy_totalErrors,
        runAll_copy_processed, runAll_copy_successes]

/-- **C6.** A source-PDF copy is attempted for a candidate if and only if the
run is not thumbnail-only, single-file mode is active, a non-empty
`--output-base` override was supplied, and the candidate's full-page
conversion succeeded; and the copy outcome (in particular a copy failure)
changes neither any candidate's recorded success, nor the error counter, nor
the exit code. -/
theorem C6_source_copy_policy (env : Env) (args : Args) (g : String → String → Bool) :
    (∀ t ∈ (main env args).traces,
        t.copyAttempt.isSome =
          (!args.thumbnail_only &&
            (truthy args.input_file && truthy args.output_base && t.success))) ∧
    (main { env with copyOk := g } args).exit = (main env args).exit ∧
    (main { env with copyOk := g } args).totalErrors = (main env args).totalErrors ∧
    ((main { env with copyOk := g } args).traces.map (fun t => t.success) =
      (main env args).traces.map (fun t => t.success)) := by
  refine ⟨?_, main_copy_invariant env g args⟩
  intro t ht
  rcases main_shape env args with hm | hm | ⟨d, cands, hm⟩ <;> rw [hm] at ht
  · simp [preflightOut] at ht
  · simp [noPdfsOut] at ht
  · simp only [finishRun] at ht
    rw [runAll_traces] at ht
    obtain ⟨p, _, rfl⟩ := List.mem_map.mp ht
    exact processCandidate_copyAttempt env args d p

/-- Witness for C6: the single-file override run attempts its copy, and a
failing copy leaves the exit code unchanged. -/
theorem C6_witness :
    traceSingleOk ∈ (main envOkTwoPages argsSingle).traces ∧
    (traceSingleOk.copyAttempt.isSome =
      (!argsSingle.thumbnail_only &&
        (truthy argsSingle.input_file && truthy argsSingle.output_base &&
          traceSingleOk.success))) ∧
    (main { envOkTwoPages with copyOk := fun _ _ => false } argsSingle).exit =
      (main envOkTwoPages argsSingle).exit :=
  ⟨by decide,
    (C6_source_copy_policy envOkTwoPages argsSingle (fun _ _ => false)).1 traceSingleOk
      (by decide),
    (C6_source_copy_policy envOkTwoPages argsSingle (fun _ _ => false)).2.1⟩

lemma addUppers_mem (env : Env) :
    ∀ (l acc : List String) (p : String), p ∈ addUppers env acc l → p ∈ acc ∨ p ∈ l := by
  intro l
  induction l with
  | nil => intro acc p hp; exact Or.inl hp
  | cons q qs ih =>
    intro acc p hp
    unfold addUppers at hp
    split at hp
    · rcases ih _ _ hp with h | h
      · rcases List.mem_append.mp h with h | h
        · exact Or.inl h
        · simp only [List.mem_singleton] at h
          exact Or.inr (by simp [h])
      · exact Or.inr (by simp [h])
    · rcases ih _ _ hp with h | h
      · exact Or.inl h
      · exact Or.inr (by simp [h])

lemma mem_enumerateFolder (env : Env) (folder p : String)
    (hp : p ∈ enumerateFolder env folder) :
    ∃ n ∈ env.listdir folder, p = pjoin folder n ∧
      (globMatch ".pdf" n || globMatch ".PDF" n) = true := by
  unfold enumerateFolder at hp
  rcases addUppers_mem env _ _ _ hp with h | h
  · have h' := List.mem_of_mem_filter h
    obtain ⟨n, hn, rfl⟩ := List.mem_map.mp h'
    have hn' := List.mem_filter.mp hn
    exact ⟨n, hn'.1, rfl, by simp [hn'.2]⟩
  · obtain ⟨n, hn, rfl⟩ := List.mem_map.mp h
    have hn' := List.mem_filter.mp hn
    exact ⟨n, hn'.1, rfl, by simp [hn'.2]⟩

lemma main_candidates_folder (env : Env) (args : Args) (folder : String)
    (hfile : args.input_file = none) (hfolder : args.input_folder = some folder) :
    (main env args).candidates = [] ∨
      (main env args).candidates = enumerateFolder env folder := by
  unfold main
  dsimp only
  rw [hfile, hfolder]
  simp only [truthy, Option.getD_some]
  repeat' split
  all_goals simp_all [preflightOut, noPdfsOut, finishRun, runAll]

/-- **C10.** The extension check is asymmetric: single-file pre-flight
accepts any capitalization whose lowercase form ends in `.pdf` (so `a.Pdf`
passes), while folder mode enumerates only direct-child names matched by
the exact glob patterns `*.pdf` or `*.PDF`, silently excluding a
mixed-case name such as `a.Pdf`. -/
theorem C10_extension_check_asymmetry :
    (∀ (env : Env) (args : Args) (f : String),
      args.input_file = some f → args.input_folder = none → args.output_dir = none →
      f ≠ "" → env.mkdirOk "." = true → env.isfile f = true →
      strEndsWith (pyLower f) ".pdf" = true →
      (main env args).preflightFailed = false ∧ (main env args).candidates = [f]) ∧
    (∀ (env : Env) (args : Args) (folder : String),
      args.input_file = none → args.input_folder = some folder →
      ∀ p ∈ (main env args).candidates,
        ∃ n ∈ env.listdir folder, p = pjoin folder n ∧
          (globMatch ".pdf" n || globMatch ".PDF" n) = true) ∧
    (main envMixed argsFolder).candidates = ["docs/b.pdf"] ∧
    (main envMixed argsMixedSingle).preflightFailed = false ∧
    (main envMixed argsMixedSingle).candidates = ["a.Pdf"] := by
  refine ⟨?_, ?_, by decide, by decide, by decide⟩
  · intro env args f hfi hfo hod hne hmk hisf hext
    unfold main
    dsimp only
    rw [hfi, hfo, hod]
    simp only [truthy, Option.getD_some]
    simp [hne, hmk, hisf, hext, finishRun]
  · intro env args folder hfile hfolder p hp
    rcases main_candidates_folder env args folder hfile hfolder with h | h <;> rw [h] at hp
    · simp at hp
    · exact mem_enumerateFolder env folder p hp

/-- Witness for C10: mixed-case `a.Pdf` accepted in single-file mode. -/
theorem C10_witness :
    argsMixedSingle.input_file = some "a.Pdf" ∧
    ((main envMixed argsMixedSingle).preflightFailed = false ∧
      (main envMixed argsMixedSingle).candidates = ["a.Pdf"]) :=
  ⟨rfl,
    C10_extension_check_asymmetry.1 envMixed argsMixedSingle "a.Pdf" rfl rfl rfl (by decide)
      rfl rfl (by decide)⟩

end PdfConverter
